import Mathlib

/-!
A verification development for the CalendarApp repository's core scheduling
engine: recurrence-instance generation (`CalendarService._create_recurring_events`),
event creation/update/deletion (`CalendarService.create_event`, `update_event`,
`delete_event`), the retention sweep (`CalendarService.delete_past_events`),
the criteria filter (`FilterService.filter_events`) and the sliding-window
query (`AgendaViewService.get_all_events`).

Dates are naive calendar dates, embedded as a `Date` structure ordered
lexicographically, which agrees with both Python `datetime.date` ordering and
the lexicographic ordering of the `YYYY-MM-DD` strings the code stores.

The persistence layer used by `CalendarService` (`insert_event`,
`get_event_by_id`, `get_events_for_month`, `update_event`, `delete_event`,
`delete_recurring_instances`) is declared by its call sites but absent from
the repository's `CalendarDatabase` class; those operations are modelled from
the spec's description of the persistence collaborator, with an explicit
failure oracle so that arbitrary store-failure behaviours can be quantified
over. Store operations return `Except String` results: an `Except.error`
models a raised exception.
-/

/-- A naive calendar date, as Python's `datetime.date`. -/
structure Date where
  year : Nat
  month : Nat
  day : Nat
deriving DecidableEq, BEq, Repr

/-- Python `datetime.date` strict ordering: lexicographic on (year, month, day).
Coincides with string comparison of zero-padded `YYYY-MM-DD` forms. -/
def Date.ltb (a b : Date) : Bool :=
  decide (a.year < b.year ∨ (a.year = b.year ∧
    (a.month < b.month ∨ (a.month = b.month ∧ a.day < b.day))))

/-- Non-strict date ordering. -/
def Date.leb (a b : Date) : Bool :=
  a == b || Date.ltb a b

/-- Gregorian leap-year test, as Python's `calendar.isleap`. -/
def isLeap (y : Nat) : Bool :=
  (y % 4 == 0 && y % 100 != 0) || y % 400 == 0

/-- Number of days in a month, as Python's `calendar.monthrange(y, m)[1]`. -/
def daysInMonth (y m : Nat) : Nat :=
  if m == 2 then (if isLeap y then 29 else 28)
  else if m == 4 || m == 6 || m == 9 || m == 11 then 30
  else 31

/-- The day after `d` (Python `d + timedelta(days=1)`). -/
def Date.succDay (d : Date) : Date :=
  if d.day < daysInMonth d.year d.month then ⟨d.year, d.month, d.day + 1⟩
  else if d.month < 12 then ⟨d.year, d.month + 1, 1⟩
  else ⟨d.year + 1, 1, 1⟩

/-- `d + timedelta(days=n)`. -/
def addDays : Nat → Date → Date
  | 0, d => d
  | n + 1, d => addDays n d.succDay

/-- Advancing (year, month) by one calendar month, exactly as the
`month == 12` branch in `CalendarService._create_recurring_events`. -/
def nextMonth (ym : Nat × Nat) : Nat × Nat :=
  if ym.2 == 12 then (ym.1 + 1, 1) else (ym.1, ym.2 + 1)

/-- The `monthly` step of `_create_recurring_events`: advance the month; if
`current_date.replace(year, month)` would raise `ValueError` (the day does not
exist in the target month), use the target month's last day. -/
def nextMonthly (d : Date) : Date :=
  let ym := nextMonth (d.year, d.month)
  if d.day ≤ daysInMonth ym.1 ym.2 then ⟨ym.1, ym.2, d.day⟩
  else ⟨ym.1, ym.2, daysInMonth ym.1 ym.2⟩

/-- The `yearly` step of `_create_recurring_events`: advance the year; if
`replace(year+1)` would raise `ValueError` (Feb 29 in a non-leap year),
the handler retries with `day=28`. -/
def nextYearly (d : Date) : Date :=
  if d.day ≤ daysInMonth (d.year + 1) d.month then ⟨d.year + 1, d.month, d.day⟩
  else ⟨d.year + 1, d.month, 28⟩

/-- One step of the `if/elif` chain at the bottom of the
`_create_recurring_events` loop. An unrecognized pattern matches no branch,
so the date is left unchanged. -/
def stepDate (pattern : String) (d : Date) : Date :=
  if pattern == "daily" then addDays 1 d
  else if pattern == "weekly" then addDays 7 d
  else if pattern == "monthly" then nextMonthly d
  else if pattern == "yearly" then nextYearly d
  else d

/-- The sequence of occurrence dates the `_create_recurring_events` loop
iterates over: the i-th created instance carries the current date, which is
then stepped by the recurrence pattern. This is the spec's
`generate_occurrences(start_date, pattern, count)`. -/
def generate_occurrences (pattern : String) : Nat → Date → List Date
  | 0, _ => []
  | n + 1, d => d :: generate_occurrences pattern n (stepDate pattern d)

/-- Iterated calendar-month advance: the (year, month) reached after `i`
steps of the loop's month arithmetic. -/
def monthIter : Nat → Nat × Nat → Nat × Nat
  | 0, ym => ym
  | i + 1, ym => monthIter i (nextMonth ym)

/-- The day-of-month after `i` monthly steps starting from day `day0` in
month `ym`: the starting day clamped, in order, by each intervening month's
length (a clamp by a short month persists through later longer months). -/
def clampedDay (day0 : Nat) : Nat → Nat × Nat → Nat
  | 0, _ => day0
  | i + 1, ym =>
    let ym1 := nextMonth ym
    clampedDay (min day0 (daysInMonth ym1.1 ym1.2)) i ym1

/-- The stored shape of one event row, with the fields of the `event_data`
dictionaries `CalendarService` persists (plus the store-assigned id). -/
structure Row where
  id : Nat
  title : String
  date : Date
  start_day : Date
  end_day : Date
  start_time : String
  end_time : String
  description : String
  is_recurring : Bool
  recurrence_pattern : Option String
  is_all_day : Bool
deriving DecidableEq, BEq, Repr

/-- The `event_data` dictionary passed to the store's insert: a `Row`
without the store-assigned id. -/
structure EventData where
  title : String
  date : Date
  start_day : Date
  end_day : Date
  start_time : String
  end_time : String
  description : String
  is_recurring : Bool
  recurrence_pattern : Option String
  is_all_day : Bool
deriving DecidableEq, Repr

/-- Modelled from the spec: the persistence collaborator. Its operations
(`insert`, `get_by_id`, `query_by_month`, `update`, `delete`, `delete_where`)
are called by `CalendarService` but are absent from the repository's
`CalendarDatabase` class. `fails` is a failure oracle: the `calls`-th store
call raises iff `fails calls` is true, so quantifying over `fails` quantifies
over every pattern of store failures. -/
structure Store where
  rows : List Row
  nextId : Nat
  calls : Nat
  fails : Nat → Bool

/-- Consume one store call: whether it raises, and the store with the call
counter advanced. -/
def Store.tick (s : Store) : Bool × Store :=
  (s.fails s.calls, { s with calls := s.calls + 1 })

/-- Modelled from the spec: `insert(event_fields) → new_id`. Appends a fresh
row with a store-assigned id (ids start at 1, as SQLite AUTOINCREMENT). -/
def Store.insert_event (s : Store) (e : EventData) : Except String Nat × Store :=
  let t := s.tick
  if t.1 then (Except.error "store error", t.2)
  else
    (Except.ok t.2.nextId,
      { t.2 with
        rows := t.2.rows ++ [⟨t.2.nextId, e.title, e.date, e.start_day, e.end_day,
          e.start_time, e.end_time, e.description, e.is_recurring,
          e.recurrence_pattern, e.is_all_day⟩],
        nextId := t.2.nextId + 1 })

/-- Modelled from the spec: `get_by_id(id) → event_or_absent`. -/
def Store.get_event_by_id (s : Store) (id : Nat) :
    Except String (Option Row) × Store :=
  let t := s.tick
  if t.1 then (Except.error "store error", t.2)
  else (Except.ok (t.2.rows.find? (fun r => r.id == id)), t.2)

/-- Modelled from the spec: `update(event_fields_with_id) → success`;
replaces the row with the matching id. -/
def Store.update_event (s : Store) (r : Row) : Except String Unit × Store :=
  let t := s.tick
  if t.1 then (Except.error "store error", t.2)
  else (Except.ok (),
    { t.2 with rows := t.2.rows.map (fun x => if x.id == r.id then r else x) })

/-- Modelled from the spec: `delete(id) → success`, failing with NotFound
when the id is absent. -/
def Store.delete_event (s : Store) (id : Nat) : Except String Unit × Store :=
  let t := s.tick
  if t.1 then (Except.error "store error", t.2)
  else if t.2.rows.any (fun r => r.id == id) then
    (Except.ok (), { t.2 with rows := t.2.rows.filter (fun r => r.id != id) })
  else (Except.error "Event not found", t.2)

/-- Row `r` matches the series triple (title, pattern, anchor date) by
equality, the match `delete_where` uses. -/
def seriesMatch (title : String) (pat : Option String) (d : Date) (r : Row) : Bool :=
  r.title == title && r.recurrence_pattern == pat && r.date == d

/-- Modelled from the spec: `delete_where(title, pattern, anchor_date) → count`,
an equality match on the identifying triple (spec §4.1 `delete_series`). -/
def Store.delete_recurring_instances (s : Store) (title : String)
    (pat : Option String) (d : Date) : Except String Nat × Store :=
  let t := s.tick
  if t.1 then (Except.error "store error", t.2)
  else
    (Except.ok ((t.2.rows.filter (seriesMatch title pat d)).length),
      { t.2 with rows := t.2.rows.filter (fun r => !seriesMatch title pat d r) })

/-- First day of a month. -/
def monthFirst (y m : Nat) : Date := ⟨y, m, 1⟩

/-- Last day of a month. -/
def monthLast (y m : Nat) : Date := ⟨y, m, daysInMonth y m⟩

/-- The spec's month-overlap test (§4.2):
`event.start_day ≤ month_last_day AND event.end_day ≥ month_first_day`. -/
def overlapsMonth (r : Row) (y m : Nat) : Bool :=
  Date.leb r.start_day (monthLast y m) && Date.leb (monthFirst y m) r.end_day

/-- Modelled from the spec: `query_by_month(year, month)` returns every event
overlapping that month (interval semantics of §4.2). -/
def Store.get_events_for_month (s : Store) (y m : Nat) :
    Except String (List Row) × Store :=
  let t := s.tick
  if t.1 then (Except.error "store error", t.2)
  else (Except.ok (t.2.rows.filter (fun r => overlapsMonth r y m)), t.2)

/-- A store over the given rows whose oracle never fails. -/
def noFailStore (rows : List Row) : Store :=
  ⟨rows, 1, 0, fun _ => false⟩

/-- Python's `not s or not s.strip()` blank test: the string is empty or all
whitespace. -/
def isBlank (s : String) : Bool := s.data.all Char.isWhitespace

/-- Python's `str.lower()`, character by character. -/
def lowerStr (s : String) : String := String.mk (s.data.map Char.toLower)

/-- `CalendarService._validate_event_data`, with `datetime.date.today()`
injected as the `today` parameter. Returns `(is_valid, error_message)`. -/
def validate_event_data (today : Date) (title : String) (date : Date)
    (start_time end_time : String) (is_all_day : Bool)
    (description : String) : Bool × String :=
  if isBlank title then
    (false, "Event title is required and cannot be empty")
  else if description.length > 80 then
    (false, "Description must be 80 characters or less (currently " ++
      toString description.length ++ " characters)")
  else if Date.ltb date today then
    (false, "Cannot create events for past dates")
  else if !is_all_day && isBlank start_time then
    (false, "Start time is required for timed events")
  else if !is_all_day && isBlank end_time then
    (false, "End time is required for timed events")
  else (true, "")

/-- `CalendarService._create_recurring_events`: one insert attempt per
occurrence date, each instance single-day (`start_day = end_day = date`),
with a per-insert `try/except` that skips a failed instance; returns the list
of created ids. -/
def create_recurring_events (title start_time end_time description : String)
    (is_all_day : Bool) (pattern : String) : Nat → Date → Store → List Nat × Store
  | 0, _, s => ([], s)
  | n + 1, d, s =>
    let ins := s.insert_event
      ⟨title, d, d, d, start_time, end_time, description, true, some pattern, is_all_day⟩
    match ins.1 with
    | Except.ok id =>
      let rest := create_recurring_events title start_time end_time description
        is_all_day pattern n (stepDate pattern d) ins.2
      (id :: rest.1, rest.2)
    | Except.error _ =>
      create_recurring_events title start_time end_time description
        is_all_day pattern n (stepDate pattern d) ins.2

/-- The `num_occurrences` default of `_create_recurring_events`;
`create_event` never overrides it. -/
def numOccurrencesDefault : Nat := 26

/-- `CalendarService.create_event`. The whole post-validation body sits in a
`try/except Exception` that converts any raised store error into a
`(False, message, None)` result, so the outer value is always `Except.ok`. -/
def create_event (s : Store) (today : Date) (title : String) (date : Date)
    (start_time end_time description : String) (is_all_day is_recurring : Bool)
    (recurrence_pattern : String) (end_date : Option Date) :
    Except String (Bool × String × Option Nat) × Store :=
  let v := validate_event_data today title date start_time end_time is_all_day description
  if !v.1 then (Except.ok (false, v.2, none), s)
  else
    let end_date := end_date.getD date
    let start_time := if is_all_day then "All Day" else start_time
    let end_time := if is_all_day then "All Day" else end_time
    if is_recurring && recurrence_pattern != "" then
      let rec_res := create_recurring_events title start_time end_time description
        is_all_day recurrence_pattern numOccurrencesDefault date s
      match rec_res.1 with
      | [] => (Except.ok (false, "Failed to create recurring events", none), rec_res.2)
      | id :: rest =>
        (Except.ok (true, "Recurring event created with " ++
          toString (id :: rest).length ++ " instances!", some id), rec_res.2)
    else
      let ins := s.insert_event
        ⟨title, date, date, end_date, start_time, end_time, description,
          false, none, is_all_day⟩
      match ins.1 with
      | Except.ok id =>
        if id > 0 then (Except.ok (true, "Event created successfully!", some id), ins.2)
        else (Except.ok (false, "Failed to save event to database", none), ins.2)
      | Except.error e =>
        (Except.ok (false, "Error creating event: " ++ e, none), ins.2)

/-- The field-merge block of `CalendarService.update_event` (lines 266-287):
each provided field overwrites the loaded row; a provided `date` overwrites
`date`, `start_day` and `end_day`; a provided `is_all_day = True` also forces
both time fields to "All Day". -/
def apply_updates (row : Row) (title : Option String) (date : Option Date)
    (start_time end_time description : Option String)
    (is_all_day is_recurring : Option Bool)
    (recurrence_pattern : Option String) : Row :=
  let r := match title with
    | some t => { row with title := t }
    | none => row
  let r := match date with
    | some d => { r with date := d, start_day := d, end_day := d }
    | none => r
  let r := match start_time with
    | some t => { r with start_time := t }
    | none => r
  let r := match end_time with
    | some t => { r with end_time := t }
    | none => r
  let r := match description with
    | some t => { r with description := t }
    | none => r
  let r := match is_all_day with
    | some b =>
      let r2 := { r with is_all_day := b }
      if b then { r2 with start_time := "All Day", end_time := "All Day" } else r2
    | none => r
  let r := match is_recurring with
    | some b => { r with is_recurring := b }
    | none => r
  match recurrence_pattern with
  | some p => { r with recurrence_pattern := some p }
  | none => r

/-- `CalendarService.update_event`. The initial `get_event_by_id` is outside
the `try`: a store error raised there propagates (`Except.error`); the merged
row is re-validated (including the past-date rule), and only the final store
update is guarded. -/
def update_event (s : Store) (today : Date) (event_id : Nat)
    (title : Option String) (date : Option Date)
    (start_time end_time description : Option String)
    (is_all_day is_recurring : Option Bool)
    (recurrence_pattern : Option String) :
    Except String (Bool × String) × Store :=
  let g := s.get_event_by_id event_id
  match g.1 with
  | Except.error e => (Except.error e, g.2)
  | Except.ok none => (Except.ok (false, "Event not found"), g.2)
  | Except.ok (some row) =>
    let r := apply_updates row title date start_time end_time description
      is_all_day is_recurring recurrence_pattern
    let v := validate_event_data today r.title r.date r.start_time r.end_time
      r.is_all_day r.description
    if !v.1 then (Except.ok (false, v.2), g.2)
    else
      let u := g.2.update_event r
      match u.1 with
      | Except.ok _ => (Except.ok (true, "Event updated successfully!"), u.2)
      | Except.error e => (Except.ok (false, "Failed to update event: " ++ e), u.2)

/-- `CalendarService.delete_event`: whole body in `try/except`, so a raised
store error becomes a `(False, message)` result. With `delete_all_recurring`
on a recurring row it calls `delete_recurring_instances` with the clicked
row's own `title`, `recurrence_pattern` and `date`. -/
def delete_event (s : Store) (event_id : Nat) (delete_all_recurring : Bool) :
    Except String (Bool × String) × Store :=
  let g := s.get_event_by_id event_id
  match g.1 with
  | Except.error e => (Except.ok (false, "Failed to delete event: " ++ e), g.2)
  | Except.ok none => (Except.ok (false, "Event not found"), g.2)
  | Except.ok (some row) =>
    if row.is_recurring && delete_all_recurring then
      let del := g.2.delete_recurring_instances row.title row.recurrence_pattern row.date
      match del.1 with
      | Except.ok n =>
        (Except.ok (true, "Deleted " ++ toString n ++ " recurring event instances!"), del.2)
      | Except.error e => (Except.ok (false, "Failed to delete event: " ++ e), del.2)
    else
      let del := g.2.delete_event event_id
      match del.1 with
      | Except.ok _ => (Except.ok (true, "Event deleted successfully!"), del.2)
      | Except.error e => (Except.ok (false, e), del.2)

/-- Fuel-driven form of the `while target_month <= 0: target_month += 12;
target_year -= 1` adjustment; the fuel below always suffices. -/
def liftLowFuel : Nat → Int → Int → Int × Int
  | 0, y, m => (y, m)
  | fuel + 1, y, m => if m ≤ 0 then liftLowFuel fuel (y - 1) (m + 12) else (y, m)

/-- The `while target_month <= 0` year-boundary adjustment. Each pass of the
loop raises the month by 12, so `(1 - m).toNat` passes always reach a
positive month. -/
def liftLow (y m : Int) : Int × Int :=
  liftLowFuel (1 - m).toNat y m

/-- Fuel-driven form of the `while target_month > 12: target_month -= 12;
target_year += 1` adjustment. -/
def liftHighFuel : Nat → Int → Int → Int × Int
  | 0, y, m => (y, m)
  | fuel + 1, y, m => if m > 12 then liftHighFuel fuel (y + 1) (m - 12) else (y, m)

/-- The `while target_month > 12` year-boundary adjustment. -/
def liftHigh (y m : Int) : Int × Int :=
  liftHighFuel m.toNat y m

/-- The two sequential `while` adjustments of the window loops
(`AgendaViewService.get_all_events`): first lift a non-positive month, then
lower a month above 12. -/
def normYM (y m : Int) : Int × Int :=
  liftHigh (liftLow y m).1 (liftLow y m).2

/-- The (year, month) the window loop targets at a given month offset from
`today`. -/
def monthOf (today : Date) (offset : Int) : Int × Int :=
  normYM (today.year : Int) ((today.month : Int) + offset)

/-- The retention-sweep inner loop over one month's query result
(`CalendarService.delete_past_events`, lines 443-451): each row whose
`end_day` precedes today and whose id is truthy is deleted through the store.
The source wraps no `try/except` around the per-row delete, so a store error
raised there propagates. -/
def sweepRows (today : Date) : List Row → Nat → Store → Except String Nat × Store
  | [], acc, s => (Except.ok acc, s)
  | r :: rest, acc, s =>
    if Date.ltb r.end_day today && r.id != 0 then
      let del := s.delete_event r.id
      match del.1 with
      | Except.error e => (Except.error e, del.2)
      | Except.ok _ => sweepRows today rest (acc + 1) del.2
    else sweepRows today rest acc s

/-- The retention-sweep outer loop over month offsets: query one month
(unguarded — a raised store error propagates), then sweep its rows.
`delete_past_events` applies only the `while target_month <= 0` adjustment,
so `liftLow` is used here. -/
def sweepMonths (today : Date) : List Int → Nat → Store → Except String Nat × Store
  | [], acc, s => (Except.ok acc, s)
  | o :: rest, acc, s =>
    let ym := liftLow (today.year : Int) ((today.month : Int) + o)
    let q := s.get_events_for_month ym.1.toNat ym.2.toNat
    match q.1 with
    | Except.error e => (Except.error e, q.2)
    | Except.ok evs =>
      let sw := sweepRows today evs acc q.2
      match sw.1 with
      | Except.error e => (Except.error e, sw.2)
      | Except.ok acc2 => sweepMonths today rest acc2 sw.2

/-- `CalendarService.delete_past_events`: sweep the 12 months before today's
month (offsets -12..-1), then today's month, deleting every event whose
`end_day` precedes today. No handler guards the store calls. -/
def delete_past_events (s : Store) (today : Date) : Except String Nat × Store :=
  let offsets := (List.range 12).map (fun k => (k : Int) - 12)
  let past := sweepMonths today offsets 0 s
  match past.1 with
  | Except.error e => (Except.error e, past.2)
  | Except.ok acc =>
    let q := past.2.get_events_for_month today.year today.month
    match q.1 with
    | Except.error e => (Except.error e, q.2)
    | Except.ok evs => sweepRows today evs acc q.2

/-- `CalendarService.__init__` calls `delete_past_events()` unguarded, so an
error the sweep propagates aborts service construction. -/
def service_init (s : Store) (today : Date) : Except String Nat × Store :=
  delete_past_events s today

/-- `needle` begins `hay` (character-list form of Python's startswith, used
to build the substring test below). -/
def startsWithL : List Char → List Char → Bool
  | [], _ => true
  | _ :: _, [] => false
  | a :: as, b :: bs => a == b && startsWithL as bs

/-- Python's `needle in hay` substring containment on character lists; the
empty needle is contained everywhere. -/
def containsSub (needle : List Char) : List Char → Bool
  | [] => startsWithL needle []
  | c :: t => startsWithL needle (c :: t) || containsSub needle t

/-- The filter-criteria dictionary of `FilterService.filter_events`, with
each key's documented default standing in for an absent key. -/
structure Criteria where
  search_text : String
  from_date : Option Date
  to_date : Option Date
  show_all_day : Bool
  show_timed : Bool
  show_recurring : Bool
deriving Repr

/-- `FilterService._matches_text_filter`: empty search text always matches,
otherwise case-insensitive substring of title or description (the criteria
text arrives already lowercased, as in `filter_events`). -/
def matches_text_filter (e : Row) (search_text : String) : Bool :=
  if search_text == "" then true
  else
    containsSub search_text.data (lowerStr e.title).data ||
      containsSub search_text.data (lowerStr e.description).data

/-- `FilterService._matches_date_filter`: both bounds must be present to
filter, and the test is inclusive on the event's single anchor date. -/
def matches_date_filter (e : Row) (from_date to_date : Option Date) : Bool :=
  match from_date, to_date with
  | some f, some t => Date.leb f e.date && Date.leb e.date t
  | _, _ => true

/-- `FilterService._matches_type_filter`: three independent exclusion
checks. -/
def matches_type_filter (e : Row) (show_all_day show_timed show_recurring : Bool) : Bool :=
  if e.is_all_day && !show_all_day then false
  else if !e.is_all_day && !show_timed then false
  else if e.is_recurring && !show_recurring then false
  else true

/-- `FilterService.filter_events`: the loop with three `continue` guards,
appending each surviving event in order. (A falsy/absent criteria dictionary
returns the input unchanged; with the documented defaults filled in, that
case coincides with the all-default `Criteria`.) -/
def filter_events : List Row → Criteria → List Row
  | [], _ => []
  | e :: rest, c =>
    if !matches_text_filter e (lowerStr c.search_text) then filter_events rest c
    else if !matches_date_filter e c.from_date c.to_date then filter_events rest c
    else if !matches_type_filter e c.show_all_day c.show_timed c.show_recurring then
      filter_events rest c
    else e :: filter_events rest c

/-- Modelled from the spec: the FilterEngine `matches(event, criteria)`
predicate as §4.3 words it — case-insensitive substring match of the search
text against title OR description (absent/empty text always matches), AND the
inclusive anchor-date range test applied only when both bounds are present,
AND the three exclusion flags (all-day events need `show_all_day`, timed
events need `show_timed`, recurring events additionally need
`show_recurring`). -/
def spec_matches (c : Criteria) (e : Row) : Bool :=
  (lowerStr c.search_text == "" ||
    (containsSub (lowerStr c.search_text).data (lowerStr e.title).data ||
      containsSub (lowerStr c.search_text).data (lowerStr e.description).data)) &&
  (match c.from_date, c.to_date with
    | some f, some t => Date.leb f e.date && Date.leb e.date t
    | _, _ => true) &&
  (!e.is_all_day || c.show_all_day) &&
  (e.is_all_day || c.show_timed) &&
  (!e.is_recurring || c.show_recurring)

/-- Code-point lexicographic string comparison, as Python's `<=` on the
`(date, start_time)` sort keys. -/
def charsLe : List Char → List Char → Bool
  | [], _ => true
  | _ :: _, [] => false
  | a :: as, b :: bs =>
    if a < b then true else if a == b then charsLe as bs else false

/-- The sort key comparison of `get_all_events`:
`key=lambda event: (event.date, event.start_time)` ascending. -/
def agendaKeyLe (a b : Row) : Bool :=
  Date.ltb a.date b.date || (a.date == b.date && charsLe a.start_time.data b.start_time.data)

/-- The sort relation on rows as a decidable proposition. -/
def agendaRel (a b : Row) : Prop := agendaKeyLe a b = true

instance : DecidableRel agendaRel := fun a b => instDecidableEqBool (agendaKeyLe a b) true

/-- The month-query loop of `AgendaViewService.get_all_events` (identical in
`MonthViewService.get_events_for_all_months`): one `get_events_for_month`
per offset, results concatenated without deduplication; a raised store error
propagates. -/
def collectMonths (today : Date) : List Int → Store → Except String (List Row) × Store
  | [], s => (Except.ok [], s)
  | o :: rest, s =>
    let ym := monthOf today o
    let q := s.get_events_for_month ym.1.toNat ym.2.toNat
    match q.1 with
    | Except.error e => (Except.error e, q.2)
    | Except.ok evs =>
      let more := collectMonths today rest q.2
      match more.1 with
      | Except.error e => (Except.error e, more.2)
      | Except.ok evs2 => (Except.ok (evs ++ evs2), more.2)

/-- The offsets `range(-months_before, months_after + 1)` of the window
loop. -/
def windowOffsets (months_before months_after : Nat) : List Int :=
  (List.range (months_before + months_after + 1)).map
    (fun k => (k : Int) - (months_before : Int))

/-- `AgendaViewService.get_all_events(months_before=6, months_after=6)`:
concatenate the per-month query results over the offset window around today,
then sort by `(date, start_time)`. -/
def get_all_events (s : Store) (today : Date) (months_before months_after : Nat) :
    Except String (List Row) × Store :=
  let col := collectMonths today (windowOffsets months_before months_after) s
  match col.1 with
  | Except.error e => (Except.error e, col.2)
  | Except.ok evs => (Except.ok (List.insertionSort agendaRel evs), col.2)

/-- The (year, month) pairs of the query window, one per offset. -/
def windowMonths (today : Date) (months_before months_after : Nat) : List (Int × Int) :=
  (windowOffsets months_before months_after).map (monthOf today)

/-- `Except` result is a success. -/
def isOkE : Except String α → Bool
  | Except.ok _ => true
  | Except.error _ => false

/-! ## Occurrence generation (claims C2, C3) -/

theorem stepDate_monthly (d : Date) : stepDate "monthly" d = nextMonthly d := by
  rfl

theorem nextMonthly_ym (d : Date) :
    ((nextMonthly d).year, (nextMonthly d).month) = nextMonth (d.year, d.month) := by
  by_cases h : d.day ≤ daysInMonth (nextMonth (d.year, d.month)).1 (nextMonth (d.year, d.month)).2 <;>
    simp [nextMonthly, h]

theorem nextMonthly_day (d : Date) :
    (nextMonthly d).day =
      min d.day (daysInMonth (nextMonth (d.year, d.month)).1 (nextMonth (d.year, d.month)).2) := by
  by_cases h : d.day ≤ daysInMonth (nextMonth (d.year, d.month)).1 (nextMonth (d.year, d.month)).2
  · simp [nextMonthly, h, Nat.min_eq_left h]
  · simp [nextMonthly, h, Nat.min_eq_right (Nat.le_of_not_le h)]

theorem generate_occurrences_length (pattern : String) (n : Nat) (d : Date) :
    (generate_occurrences pattern n d).length = n := by
  induction n generalizing d with
  | zero => rfl
  | succ m ih => simp [generate_occurrences, ih]

/-- C2 (amended): monthly occurrence generation produces exactly `n` dates;
the i-th (0-based) falls in the calendar month i months after the start's
month, and its day-of-month is the start's day clamped successively by every
intervening month's length — once shortened by a short month, the day stays
shortened through later longer months. -/
theorem monthly_occurrences_month_and_clamp (d : Date) (n : Nat) :
    (generate_occurrences "monthly" n d).length = n ∧
    ∀ i, i < n → (generate_occurrences "monthly" n d)[i]? =
      some ⟨(monthIter i (d.year, d.month)).1, (monthIter i (d.year, d.month)).2,
        clampedDay d.day i (d.year, d.month)⟩ := by
  refine ⟨generate_occurrences_length _ _ _, ?_⟩
  intro i
  induction i generalizing d n with
  | zero =>
    intro hn
    match n, hn with
    | m + 1, _ =>
      show (d :: generate_occurrences "monthly" m (stepDate "monthly" d))[0]? = _
      rw [List.getElem?_cons_zero]
      rfl
  | succ j ih =>
    intro hn
    match n, hn with
    | m + 1, hn =>
      have hj : j < m := Nat.lt_of_succ_lt_succ hn
      show (d :: generate_occurrences "monthly" m (stepDate "monthly" d))[j + 1]? = _
      rw [List.getElem?_cons_succ, stepDate_monthly, ih (nextMonthly d) m hj]
      have hym := nextMonthly_ym d
      have hday := nextMonthly_day d
      congr 1
      have h1 : monthIter j ((nextMonthly d).year, (nextMonthly d).month) =
          monthIter (j + 1) (d.year, d.month) := by
        rw [hym]; rfl
      have h2 : clampedDay (nextMonthly d).day j ((nextMonthly d).year, (nextMonthly d).month) =
          clampedDay d.day (j + 1) (d.year, d.month) := by
        rw [hym, hday]; rfl
      rw [h1, h2]

/-- C2 witness: the spec's own example — two monthly occurrences from
2025-01-31 are [2025-01-31, 2025-02-28]. -/
theorem monthly_occurrences_witness :
    (generate_occurrences "monthly" 2 ⟨2025, 1, 31⟩)[1]? = some ⟨2025, 2, 28⟩ ∧
    (generate_occurrences "monthly" 2 ⟨2025, 1, 31⟩).length = 2 := by
  have h := monthly_occurrences_month_and_clamp ⟨2025, 1, 31⟩ 2
  exact ⟨(h.2 1 (by decide)).trans (by decide), h.1⟩

/-- C2 counterexample: from 2025-01-31 the third monthly occurrence is
2025-03-28, not 2025-03-31 as "the start's day clamped to that month"
predicts (March has 31 days, so no clamp would apply). -/
theorem monthly_claim_false_at_jan31 :
    (generate_occurrences "monthly" 3 ⟨2025, 1, 31⟩)[2]? = some ⟨2025, 3, 28⟩ ∧
    daysInMonth 2025 3 = 31 ∧
    ((⟨2025, 3, 28⟩ : Date) ≠ ⟨2025, 3, 31⟩) := by
  decide

theorem stepDate_unrecognized (pattern : String) (d : Date)
    (h : pattern ∉ ["daily", "weekly", "monthly", "yearly"]) :
    stepDate pattern d = d := by
  simp only [List.mem_cons, List.mem_singleton, not_or] at h
  obtain ⟨h1, h2, h3, h4, _⟩ := h
  simp [stepDate, h1, h2, h3, h4]

/-- C3 (amended): the code has no InvalidPattern failure. For a pattern
outside {daily, weekly, monthly, yearly} the `if/elif` chain never advances
the date, so generation still produces `count` occurrences, all equal to the
start date. -/
theorem unrecognized_pattern_repeats_start (pattern : String) (d : Date) (n : Nat)
    (h : pattern ∉ ["daily", "weekly", "monthly", "yearly"]) :
    generate_occurrences pattern n d = List.replicate n d := by
  induction n with
  | zero => rfl
  | succ m ih =>
    show d :: generate_occurrences pattern m (stepDate pattern d) = _
    rw [stepDate_unrecognized pattern d h, ih, List.replicate_succ]

/-- C3 witness: the unrecognized pattern "fortnightly" yields three
occurrences all on the start date. -/
theorem unrecognized_pattern_witness :
    generate_occurrences "fortnightly" 3 ⟨2025, 5, 1⟩ =
      List.replicate 3 ⟨2025, 5, 1⟩ :=
  unrecognized_pattern_repeats_start "fortnightly" ⟨2025, 5, 1⟩ 3 (by decide)

/-- C3 counterexample: "fortnightly" is not a recognized pattern, yet
occurrence generation produces a non-empty sequence for it, and the full
creation path succeeds, persisting 26 same-day instances — no InvalidPattern
error exists anywhere on the path. -/
theorem invalid_pattern_raises_nothing :
    ("fortnightly" ∉ ["daily", "weekly", "monthly", "yearly"]) ∧
    generate_occurrences "fortnightly" 3 ⟨2025, 5, 1⟩ ≠ [] ∧
    (create_event (noFailStore []) ⟨2025, 1, 1⟩ "Gym" ⟨2025, 1, 2⟩ "9:00" "10:00"
        "" false true "fortnightly" none).1 =
      Except.ok (true, "Recurring event created with 26 instances!", some 1) := by
  refine ⟨by decide, by decide, by rfl⟩

/-! ## Series identity and deletion (claim C1) -/

/-- The spec's series-deletion example: a weekly series of 4 instances from
2025-02-03 titled "Standup", created over an empty, reliable store. -/
def standupSeries : List Nat × Store :=
  create_recurring_events "Standup" "10:00" "11:00" "" false "weekly" 4
    ⟨2025, 2, 3⟩ (noFailStore [])

/-- Deleting the series through the service (`delete_event` with
`delete_all_recurring=True` on the first instance), which matches the triple
(title, pattern, clicked instance's own date) by equality. -/
def standupDeletion : Except String (Bool × String) × Store :=
  delete_event standupSeries.2 1 true

/-- C1 evaluation: the four persisted instances do NOT share one anchor date —
each instance's `date` field is its own occurrence date — so the equality
match on ("Standup", weekly, 2025-02-03) removes exactly 1 row and leaves 3
events with that title, not 4 and 0 as the claim states. -/
theorem series_delete_misses_later_instances :
    standupSeries.1.length = 4 ∧
    standupSeries.2.rows.map Row.date =
      [⟨2025, 2, 3⟩, ⟨2025, 2, 10⟩, ⟨2025, 2, 17⟩, ⟨2025, 2, 24⟩] ∧
    standupDeletion.1 = Except.ok (true, "Deleted 1 recurring event instances!") ∧
    (standupDeletion.2.rows.filter (fun r => r.title == "Standup")).length = 3 := by
  exact ⟨rfl, rfl, rfl, rfl⟩

/-! ## Best-effort recurring creation (claim C4) -/

/-- The number of store inserts among call indices `c, c+1, …, c+n-1` that
the failure oracle `f` lets succeed. -/
def succInserts (f : Nat → Bool) : Nat → Nat → Nat
  | _, 0 => 0
  | c, n + 1 => (if f c then 0 else 1) + succInserts f (c + 1) n

theorem create_recurring_events_spec (title st et desc : String) (ad : Bool)
    (pat : String) :
    ∀ (n : Nat) (d : Date) (s : Store),
      (create_recurring_events title st et desc ad pat n d s).1.length =
        succInserts s.fails s.calls n ∧
      (create_recurring_events title st et desc ad pat n d s).2.calls = s.calls + n ∧
      (create_recurring_events title st et desc ad pat n d s).2.fails = s.fails ∧
      (create_recurring_events title st et desc ad pat n d s).2.rows.length =
        s.rows.length + (create_recurring_events title st et desc ad pat n d s).1.length ∧
      ∀ r ∈ (create_recurring_events title st et desc ad pat n d s).2.rows,
        r ∈ s.rows ∨
          (r.title = title ∧ r.start_day = r.date ∧ r.end_day = r.date ∧
            r.is_recurring = true ∧ r.recurrence_pattern = some pat ∧
            r.start_time = st ∧ r.end_time = et ∧ r.is_all_day = ad) := by
  intro n
  induction n with
  | zero =>
    intro d s
    exact ⟨rfl, rfl, rfl, rfl, fun r hr => Or.inl hr⟩
  | succ m ih =>
    intro d s
    obtain ⟨rows, nid, c, f⟩ := s
    cases h : f c with
    | true =>
      have heq : create_recurring_events title st et desc ad pat (m + 1) d ⟨rows, nid, c, f⟩ =
          create_recurring_events title st et desc ad pat m (stepDate pat d)
            ⟨rows, nid, c + 1, f⟩ := by
        simp [create_recurring_events, Store.insert_event, Store.tick, h]
      obtain ⟨l1, l2, l3, l4, l5⟩ := ih (stepDate pat d) ⟨rows, nid, c + 1, f⟩
      rw [heq]
      refine ⟨?_, ?_, l3, l4, l5⟩
      · have hstep : succInserts f c (m + 1) = succInserts f (c + 1) m := by
          simp [succInserts, h]
        rw [hstep]
        exact l1
      · rw [l2]
        dsimp only
        omega
    | false =>
      have heq : create_recurring_events title st et desc ad pat (m + 1) d ⟨rows, nid, c, f⟩ =
          (nid :: (create_recurring_events title st et desc ad pat m (stepDate pat d)
              ⟨rows ++ [⟨nid, title, d, d, d, st, et, desc, true, some pat, ad⟩],
                nid + 1, c + 1, f⟩).1,
            (create_recurring_events title st et desc ad pat m (stepDate pat d)
              ⟨rows ++ [⟨nid, title, d, d, d, st, et, desc, true, some pat, ad⟩],
                nid + 1, c + 1, f⟩).2) := by
        simp [create_recurring_events, Store.insert_event, Store.tick, h]
      obtain ⟨l1, l2, l3, l4, l5⟩ := ih (stepDate pat d)
        ⟨rows ++ [⟨nid, title, d, d, d, st, et, desc, true, some pat, ad⟩],
          nid + 1, c + 1, f⟩
      rw [heq]
      refine ⟨?_, ?_, l3, ?_, ?_⟩
      · have hstep : succInserts f c (m + 1) = 1 + succInserts f (c + 1) m := by
          simp [succInserts, h]
        dsimp only at l1 ⊢
        rw [List.length_cons, hstep, l1]
        omega
      · rw [l2]
        dsimp only
        omega
      · dsimp only at l4 ⊢
        rw [List.length_cons, l4]
        simp
        omega
      · intro r hr
        rcases l5 r hr with hmem | hprop
        · rcases List.mem_append.mp hmem with hs | hnew
          · exact Or.inl hs
          · right
            rcases List.mem_singleton.mp hnew with rfl
            exact ⟨rfl, rfl, rfl, rfl, rfl, rfl, rfl, rfl⟩
        · exact Or.inr hprop

/-- C4: recurring creation is best-effort. Each of the
`numOccurrencesDefault = 26` generated dates gets one single-day insert
attempt (`start_day = end_day = date`); an insert the store fails is skipped;
the call reports failure exactly when zero instances persisted, and otherwise
reports success with the count of instances that succeeded. -/
theorem recurring_creation_best_effort (s : Store) (today : Date) (title : String)
    (d : Date) (st et desc : String) (ad : Bool) (pat : String) (ed : Option Date)
    (hv : (validate_event_data today title d st et ad desc).1 = true)
    (hp : pat ≠ "") :
    numOccurrencesDefault = 26 ∧
    (create_event s today title d st et desc ad true pat ed).1 =
      Except.ok
        (decide (0 < succInserts s.fails s.calls numOccurrencesDefault),
          (if 0 < succInserts s.fails s.calls numOccurrencesDefault then
            "Recurring event created with " ++
              toString (succInserts s.fails s.calls numOccurrencesDefault) ++ " instances!"
          else "Failed to create recurring events"),
          (create_recurring_events title (if ad then "All Day" else st)
            (if ad then "All Day" else et) desc ad pat
            numOccurrencesDefault d s).1.head?) ∧
    (create_event s today title d st et desc ad true pat ed).2.rows.length =
      s.rows.length + succInserts s.fails s.calls numOccurrencesDefault ∧
    ∀ r ∈ (create_event s today title d st et desc ad true pat ed).2.rows,
      r ∈ s.rows ∨
        (r.start_day = r.date ∧ r.end_day = r.date ∧ r.title = title ∧
          r.is_recurring = true ∧ r.recurrence_pattern = some pat) := by
  have hpb : (pat != "") = true := bne_iff_ne.mpr hp
  obtain ⟨l1, _l2, _l3, l4, l5⟩ := create_recurring_events_spec title
    (if ad then "All Day" else st) (if ad then "All Day" else et) desc ad pat
    numOccurrencesDefault d s
  have hmain : create_event s today title d st et desc ad true pat ed =
      (match (create_recurring_events title (if ad then "All Day" else st)
          (if ad then "All Day" else et) desc ad pat numOccurrencesDefault d s).1 with
        | [] => (Except.ok (false, "Failed to create recurring events", none),
            (create_recurring_events title (if ad then "All Day" else st)
              (if ad then "All Day" else et) desc ad pat numOccurrencesDefault d s).2)
        | id :: rest => (Except.ok (true, "Recurring event created with " ++
              toString (id :: rest).length ++ " instances!", some id),
            (create_recurring_events title (if ad then "All Day" else st)
              (if ad then "All Day" else et) desc ad pat numOccurrencesDefault d s).2)) := by
    simp only [create_event, hv, Bool.not_true, Bool.false_eq_true, if_false,
      Bool.true_and, hpb, if_true]
  refine ⟨rfl, ?_, ?_, ?_⟩
  · rw [hmain]
    rcases hout : (create_recurring_events title (if ad then "All Day" else st)
        (if ad then "All Day" else et) desc ad pat numOccurrencesDefault d s).1
      with _ | ⟨id, rest⟩
    · rw [hout] at l1
      simp at l1
      simp [← l1]
    · rw [hout] at l1
      have hpos : 0 < succInserts s.fails s.calls numOccurrencesDefault := by
        rw [← l1]; simp
      simp [← l1, hpos]
  · rw [hmain]
    rcases hout : (create_recurring_events title (if ad then "All Day" else st)
        (if ad then "All Day" else et) desc ad pat numOccurrencesDefault d s).1
      with _ | ⟨id, rest⟩ <;>
      simp only [hout] at l1 l4 ⊢ <;> simp [l4, ← l1]
  · rw [hmain]
    have hmem : ∀ r ∈ (create_recurring_events title (if ad then "All Day" else st)
        (if ad then "All Day" else et) desc ad pat numOccurrencesDefault d s).2.rows,
        r ∈ s.rows ∨
          (r.start_day = r.date ∧ r.end_day = r.date ∧ r.title = title ∧
            r.is_recurring = true ∧ r.recurrence_pattern = some pat) := by
      intro r hr
      rcases l5 r hr with hs | hprop
      · exact Or.inl hs
      · exact Or.inr ⟨hprop.2.1, hprop.2.2.1, hprop.1, hprop.2.2.2.1,
          hprop.2.2.2.2.1⟩
    rcases hout : (create_recurring_events title (if ad then "All Day" else st)
        (if ad then "All Day" else et) desc ad pat numOccurrencesDefault d s).1
      with _ | ⟨id, rest⟩ <;> simpa [hout] using hmem

/-- A store whose second insert (call index 1) raises and all other calls
succeed. -/
def secondInsertFailsStore : Store := ⟨[], 1, 0, fun k => k == 1⟩

/-- C4 witness: with the second of the 26 inserts failing, the call still
succeeds, reporting 25 instances and the first created id. -/
theorem recurring_creation_best_effort_witness :
    (create_event secondInsertFailsStore ⟨2025, 1, 1⟩ "Gym" ⟨2025, 1, 2⟩ "9:00" "10:00"
        "" false true "weekly" none).1 =
      Except.ok (true, "Recurring event created with 25 instances!", some 1) := by
  have h := recurring_creation_best_effort secondInsertFailsStore ⟨2025, 1, 1⟩ "Gym"
    ⟨2025, 1, 2⟩ "9:00" "10:00" "" false "weekly" none (by rfl) (by decide)
  exact h.2.1.trans (by rfl)

/-! ## Exception safety of the core operations (claim C5) -/

/-- C5 (amended): `create_event` and `delete_event` return an explicit result
for every input and every store behaviour (their whole bodies are guarded);
`update_event` returns an explicit result provided its initial
`get_event_by_id` (the one store call outside its `try`) does not raise. -/
theorem core_ops_never_raise :
    (∀ (s : Store) (today : Date) (title : String) (d : Date) (st et desc : String)
        (ad ir : Bool) (pat : String) (ed : Option Date),
      isOkE (create_event s today title d st et desc ad ir pat ed).1 = true) ∧
    (∀ (s : Store) (event_id : Nat) (b : Bool),
      isOkE (delete_event s event_id b).1 = true) ∧
    (∀ (s : Store) (today : Date) (event_id : Nat) (t : Option String) (dt : Option Date)
        (st et dsc : Option String) (ad ir : Option Bool) (pat : Option String),
      s.fails s.calls = false →
      isOkE (update_event s today event_id t dt st et dsc ad ir pat).1 = true) := by
  have okOf : ∀ {α : Type} (x : Except String α),
      (∃ r, x = Except.ok r) → isOkE x = true := by
    rintro α x ⟨r, rfl⟩
    rfl
  refine ⟨?_, ?_, ?_⟩
  · intro s today title d st et desc ad ir pat ed
    apply okOf
    unfold create_event
    try dsimp only
    repeat' split
    all_goals exact ⟨_, rfl⟩
  · intro s event_id b
    apply okOf
    unfold delete_event
    try dsimp only
    repeat' split
    all_goals exact ⟨_, rfl⟩
  · intro s today event_id t dt st et dsc ad ir pat h
    apply okOf
    unfold update_event Store.get_event_by_id Store.tick
    simp only [h, Bool.false_eq_true, if_false]
    try dsimp only
    repeat' split
    all_goals first
      | exact ⟨_, rfl⟩
      | simp_all

/-- C5 witness: a concrete `update_event` call whose initial get succeeds
returns an explicit result. -/
theorem core_ops_never_raise_witness :
    isOkE (update_event (noFailStore []) ⟨2025, 1, 1⟩ 1 none none none none none
      none none none).1 = true :=
  core_ops_never_raise.2.2 (noFailStore []) ⟨2025, 1, 1⟩ 1 none none none none none
    none none none rfl

/-- A stale single-day event (2025-05-01) in the store. -/
def staleRow : Row :=
  ⟨1, "Old", ⟨2025, 5, 1⟩, ⟨2025, 5, 1⟩, ⟨2025, 5, 1⟩, "09:00", "10:00", "", false,
    none, false⟩

/-- A store holding the stale event whose 13th call (the sweep's delete of
that event, after 12 past-month queries) raises. -/
def sweepDeleteFailsStore : Store := ⟨[staleRow], 2, 0, fun k => k == 12⟩

/-- C5 counterexample: `delete_past_events` has no per-event handler — a store
error raised while deleting one stale event propagates out of the sweep and
out of the service construction that runs it (while the same sweep over a
store that does not fail purges that event and returns normally). -/
theorem sweep_delete_error_aborts :
    (delete_past_events sweepDeleteFailsStore ⟨2025, 6, 15⟩).1 =
      Except.error "store error" ∧
    (service_init sweepDeleteFailsStore ⟨2025, 6, 15⟩).1 =
      Except.error "store error" ∧
    (delete_past_events (noFailStore [staleRow]) ⟨2025, 6, 15⟩).1 = Except.ok 1 := by
  exact ⟨rfl, rfl, rfl⟩

/-! ## Creation-time validation (claim C6) -/

/-- C6: creation is rejected before any store call, with the offending rule's
message, exactly when the title is blank, the description exceeds 80
characters, the date is strictly before today, or a timed event is missing a
start or end time; a blank title yields the title message; a rejected call
leaves the store untouched, and a call that passes validation always reaches
the store (its call counter advances). -/
theorem creation_validation_boundary (s : Store) (today : Date) (title : String)
    (d : Date) (st et desc : String) (ad ir : Bool) (pat : String)
    (ed : Option Date) :
    ((validate_event_data today title d st et ad desc).1 = false ↔
      (isBlank title = true ∨ 80 < desc.length ∨ Date.ltb d today = true ∨
        (ad = false ∧ (isBlank st = true ∨ isBlank et = true)))) ∧
    (isBlank title = true →
      (validate_event_data today title d st et ad desc).2 =
        "Event title is required and cannot be empty") ∧
    ((validate_event_data today title d st et ad desc).1 = false →
      create_event s today title d st et desc ad ir pat ed =
        (Except.ok (false, (validate_event_data today title d st et ad desc).2, none), s)) ∧
    ((validate_event_data today title d st et ad desc).1 = true →
      s.calls < (create_event s today title d st et desc ad ir pat ed).2.calls) := by
  refine ⟨?_, ?_, ?_, ?_⟩
  · unfold validate_event_data
    split_ifs with h1 h2 h3 h4 h5 <;> simp_all
  · intro h
    unfold validate_event_data
    simp [h]
  · intro h
    simp [create_event, h]
  · intro hv
    have hins : ∀ (e : EventData), (s.insert_event e).2.calls = s.calls + 1 := by
      intro e
      cases hf : s.fails s.calls <;> simp [Store.insert_event, Store.tick, hf]
    have h26 : numOccurrencesDefault = 26 := rfl
    unfold create_event
    simp only [hv, Bool.not_true, Bool.false_eq_true, if_false]
    split
    · obtain ⟨-, hc, -, -, -⟩ := create_recurring_events_spec title
        (if ad then "All Day" else st) (if ad then "All Day" else et) desc ad pat
        numOccurrencesDefault d s
      split <;> (dsimp only; rw [hc]; omega)
    · repeat' split
      all_goals (dsimp only; rw [hins]; omega)

/-- C6 witness: creating with an empty title and `anchor_date = today` fails
with the title message and persists nothing (the store is returned
unchanged). -/
theorem creation_validation_boundary_witness :
    create_event (noFailStore []) ⟨2025, 6, 15⟩ "" ⟨2025, 6, 15⟩ "10:00" "11:00"
        "" false false "" none =
      (Except.ok (false, "Event title is required and cannot be empty", none),
        noFailStore []) := by
  have h := creation_validation_boundary (noFailStore []) ⟨2025, 6, 15⟩ ""
    ⟨2025, 6, 15⟩ "10:00" "11:00" "" false false "" none
  exact h.2.2.1 (by rfl)

/-! ## Partial update and its frame (claim C7) -/

set_option maxHeartbeats 4000000 in
/-- C7 (amended): update is partial — every field for which no new value is
passed keeps its prior value, except that (a) providing a new date sets
`date`, `start_day` AND `end_day` to that date for every event, multi-day
events included (collapsing them to single-day), and (b) providing
`is_all_day = True` also forces both time fields to "All Day". When the
loaded row exists, the merged row passes validation and the store calls
succeed, `update_event` persists exactly the merged row in place of the old
one. -/
theorem update_partial_frame (row : Row) (t : Option String) (dt : Option Date)
    (st et dsc : Option String) (ad ir : Option Bool) (pat : Option String) :
    ((apply_updates row t dt st et dsc ad ir pat).id = row.id ∧
      (t = none → (apply_updates row t dt st et dsc ad ir pat).title = row.title) ∧
      (∀ x, t = some x → (apply_updates row t dt st et dsc ad ir pat).title = x) ∧
      (dt = none → (apply_updates row t dt st et dsc ad ir pat).date = row.date ∧
        (apply_updates row t dt st et dsc ad ir pat).start_day = row.start_day ∧
        (apply_updates row t dt st et dsc ad ir pat).end_day = row.end_day) ∧
      (∀ x, dt = some x → (apply_updates row t dt st et dsc ad ir pat).date = x ∧
        (apply_updates row t dt st et dsc ad ir pat).start_day = x ∧
        (apply_updates row t dt st et dsc ad ir pat).end_day = x) ∧
      (st = none → ad ≠ some true →
        (apply_updates row t dt st et dsc ad ir pat).start_time = row.start_time) ∧
      (et = none → ad ≠ some true →
        (apply_updates row t dt st et dsc ad ir pat).end_time = row.end_time) ∧
      (ad = some true →
        (apply_updates row t dt st et dsc ad ir pat).start_time = "All Day" ∧
        (apply_updates row t dt st et dsc ad ir pat).end_time = "All Day") ∧
      (dsc = none →
        (apply_updates row t dt st et dsc ad ir pat).description = row.description) ∧
      (ad = none →
        (apply_updates row t dt st et dsc ad ir pat).is_all_day = row.is_all_day) ∧
      (∀ b, ad = some b → (apply_updates row t dt st et dsc ad ir pat).is_all_day = b) ∧
      (ir = none →
        (apply_updates row t dt st et dsc ad ir pat).is_recurring = row.is_recurring) ∧
      (pat = none → (apply_updates row t dt st et dsc ad ir pat).recurrence_pattern =
        row.recurrence_pattern)) ∧
    (∀ (s : Store) (today : Date) (event_id : Nat),
      s.fails s.calls = false →
      s.fails (s.calls + 1) = false →
      s.rows.find? (fun r => r.id == event_id) = some row →
      (validate_event_data today (apply_updates row t dt st et dsc ad ir pat).title
        (apply_updates row t dt st et dsc ad ir pat).date
        (apply_updates row t dt st et dsc ad ir pat).start_time
        (apply_updates row t dt st et dsc ad ir pat).end_time
        (apply_updates row t dt st et dsc ad ir pat).is_all_day
        (apply_updates row t dt st et dsc ad ir pat).description).1 = true →
      update_event s today event_id t dt st et dsc ad ir pat =
        (Except.ok (true, "Event updated successfully!"),
          { s with
            calls := s.calls + 1 + 1,
            rows := s.rows.map (fun x =>
              if x.id == (apply_updates row t dt st et dsc ad ir pat).id
              then apply_updates row t dt st et dsc ad ir pat else x) })) := by
  constructor
  · rcases t with _ | t0 <;> rcases dt with _ | d0 <;> rcases st with _ | s0 <;>
      rcases et with _ | e0 <;> rcases dsc with _ | x0 <;> rcases ad with _ | b <;>
      (try cases b) <;> rcases ir with _ | i0 <;> rcases pat with _ | p0 <;>
      simp [apply_updates]
  · intro s today event_id h0 h1 hf hv
    unfold update_event Store.get_event_by_id Store.tick
    simp only [h0, Bool.false_eq_true, if_false, hf]
    try dsimp only
    simp only [hv, Bool.not_true, Bool.false_eq_true, if_false]
    unfold Store.update_event Store.tick
    try dsimp only
    simp only [h1, Bool.false_eq_true, if_false]

/-- A multi-day event: May 1 through May 3. -/
def multiRow : Row :=
  ⟨1, "Trip", ⟨2025, 5, 1⟩, ⟨2025, 5, 1⟩, ⟨2025, 5, 3⟩, "09:00", "10:00", "",
    false, none, false⟩

/-- C7 witness: updating only the date sets `end_day` to the new date and
leaves the title unchanged. -/
theorem update_partial_frame_witness :
    (apply_updates multiRow none (some ⟨2025, 5, 2⟩) none none none none none
      none).end_day = ⟨2025, 5, 2⟩ ∧
    (apply_updates multiRow none (some ⟨2025, 5, 2⟩) none none none none none
      none).title = multiRow.title := by
  obtain ⟨⟨-, hTitleNone, -, -, hDateSome, -⟩, -⟩ :=
    update_partial_frame multiRow none (some ⟨2025, 5, 2⟩) none none none none none none
  exact ⟨(hDateSome ⟨2025, 5, 2⟩ rfl).2.2, hTitleNone rfl⟩

/-- C7 counterexample: updating only the date of a multi-day event (May 1-3)
succeeds and rewrites its `end_day` to the new date — the stored end day is
no longer May 3, contradicting "the end_day of a multi-day event is unchanged
by an update that provides only a new date". -/
theorem update_date_collapses_multiday :
    multiRow.start_day ≠ multiRow.end_day ∧
    multiRow.end_day = ⟨2025, 5, 3⟩ ∧
    (update_event (noFailStore [multiRow]) ⟨2025, 5, 1⟩ 1 none (some ⟨2025, 5, 2⟩)
        none none none none none none).1 =
      Except.ok (true, "Event updated successfully!") ∧
    ((update_event (noFailStore [multiRow]) ⟨2025, 5, 1⟩ 1 none (some ⟨2025, 5, 2⟩)
        none none none none none none).2.rows.map Row.end_day) = [⟨2025, 5, 2⟩] := by
  exact ⟨by decide, rfl, rfl, rfl⟩

/-! ## Past-date rule on update (claim C8) -/

/-- C8 (amended): the past-date rule IS re-checked on update. `update_event`
re-validates the merged row with the same validator used at creation, so
updating any stored event whose anchor date is strictly before today — even
changing only its title — fails with the past-date message. -/
theorem update_rechecks_past_date (s : Store) (today : Date) (event_id : Nat)
    (newTitle : String) (row : Row)
    (h0 : s.fails s.calls = false)
    (hf : s.rows.find? (fun r => r.id == event_id) = some row)
    (hp : Date.ltb row.date today = true)
    (ht : isBlank newTitle = false)
    (hd : row.description.length ≤ 80) :
    (update_event s today event_id (some newTitle) none none none none none none
      none).1 = Except.ok (false, "Cannot create events for past dates") := by
  have hd' : ¬(80 < row.description.length) := by omega
  unfold update_event Store.get_event_by_id Store.tick
  simp only [h0, Bool.false_eq_true, if_false, hf]
  try dsimp only
  simp [apply_updates, validate_event_data, ht, hp, hd']

/-- A stored event whose anchor date (2025-05-01) is past but whose end day
(2025-07-01) is not, so the sweep leaves it alone. -/
def pastRow : Row :=
  ⟨1, "Old event", ⟨2025, 5, 1⟩, ⟨2025, 5, 1⟩, ⟨2025, 7, 1⟩, "09:00", "10:00", "",
    false, none, false⟩

/-- C8 witness: on 2025-06-15, renaming the event anchored at 2025-05-01
fails the past-date validation. -/
theorem update_rechecks_past_date_witness :
    (update_event (noFailStore [pastRow]) ⟨2025, 6, 15⟩ 1 (some "Renamed") none none
        none none none none none).1 =
      Except.ok (false, "Cannot create events for past dates") :=
  update_rechecks_past_date (noFailStore [pastRow]) ⟨2025, 6, 15⟩ 1 "Renamed" pastRow
    rfl rfl rfl rfl (by decide)

/-- C8 counterexample: a title-only update of an event whose stored anchor
date is now in the past returns failure with the past-date message — it does
not succeed as the claim states. -/
theorem past_event_title_update_fails :
    (update_event (noFailStore [staleRow]) ⟨2025, 6, 15⟩ 1 (some "Still old") none
        none none none none none none).1 =
      Except.ok (false, "Cannot create events for past dates") := by
  rfl

/-! ## Criteria filter (claim C9) -/

theorem matches_text_filter_eq (e : Row) (s0 : String) :
    matches_text_filter e s0 =
      (s0 == "" || (containsSub s0.data (lowerStr e.title).data ||
        containsSub s0.data (lowerStr e.description).data)) := by
  cases h : s0 == "" <;> simp [matches_text_filter, h]

theorem matches_type_filter_eq (e : Row) (aB tB rB : Bool) :
    matches_type_filter e aB tB rB =
      ((!e.is_all_day || aB) && (e.is_all_day || tB) && (!e.is_recurring || rB)) := by
  cases hA : e.is_all_day <;> cases hR : e.is_recurring <;> cases aB <;> cases tB <;>
    cases rB <;> simp [matches_type_filter, hA, hR]

theorem matches_all_eq (c : Criteria) (e : Row) :
    (matches_text_filter e (lowerStr c.search_text) &&
      (matches_date_filter e c.from_date c.to_date &&
        matches_type_filter e c.show_all_day c.show_timed c.show_recurring)) =
      spec_matches c e := by
  rw [matches_text_filter_eq, matches_type_filter_eq]
  unfold spec_matches matches_date_filter
  cases matches_text_filter e (lowerStr c.search_text) <;>
    simp [Bool.and_assoc, Bool.and_comm, Bool.and_left_comm]

/-- C9: `filter_events` returns exactly the events satisfying the conjunction
of the spec's criteria — case-insensitive substring text match (empty text
always matches), inclusive anchor-date range applied only when both bounds
are present, and the three independent type-exclusion flags — in the original
relative order (it is pointwise `List.filter` by that conjunction). -/
theorem filter_events_is_spec_filter (events : List Row) (c : Criteria) :
    filter_events events c = events.filter (spec_matches c) := by
  induction events with
  | nil => rfl
  | cons e rest ih =>
    rw [List.filter_cons]
    have hs := matches_all_eq c e
    cases h1 : matches_text_filter e (lowerStr c.search_text) <;>
      cases h2 : matches_date_filter e c.from_date c.to_date <;>
      cases h3 : matches_type_filter e c.show_all_day c.show_timed c.show_recurring <;>
      rw [h1, h2, h3] at hs <;>
      simp [filter_events, h1, h2, h3, ← hs, ih]

/-! ## Window-query duplication (claim C10) -/

theorem collectMonths_noFail (today : Date) :
    ∀ (os : List Int) (rows : List Row) (nid c : Nat),
      collectMonths today os ⟨rows, nid, c, fun _ => false⟩ =
        (Except.ok ((os.map (fun o => rows.filter (fun x =>
            overlapsMonth x (monthOf today o).1.toNat (monthOf today o).2.toNat))).flatten),
          ⟨rows, nid, c + os.length, fun _ => false⟩) := by
  intro os
  induction os with
  | nil => intro rows nid c; simp [collectMonths]
  | cons o rest ih =>
    intro rows nid c
    have harith : c + 1 + rest.length = c + (rest.length + 1) := by omega
    simp [collectMonths, Store.get_events_for_month, Store.tick, ih, harith]

theorem countP_id_filter (r : Row) (q : Row → Bool) :
    ∀ (rows : List Row), r ∈ rows → (rows.map Row.id).Nodup →
      (rows.filter q).countP (fun x => x.id == r.id) = if q r then 1 else 0 := by
  intro rows
  induction rows with
  | nil => intro hr _; cases hr
  | cons x rest ih =>
    intro hr hid
    rw [List.countP_filter] at ih ⊢
    rw [List.countP_cons]
    have hhead : x.id ∉ rest.map Row.id := (List.nodup_cons.mp hid).1
    rcases List.mem_cons.mp hr with rfl | hr'
    · have hrest : List.countP (fun a => (a.id == r.id) && q a) rest = 0 := by
        rw [List.countP_eq_zero]
        intro a ha
        have hne : a.id ≠ r.id := fun hEq =>
          hhead (hEq ▸ List.mem_map_of_mem Row.id ha)
        simp [hne]
      rw [hrest]
      simp
    · have hx : (x.id == r.id) = false := by
        refine beq_eq_false_iff_ne.mpr (fun hEq => ?_)
        exact hhead (hEq ▸ List.mem_map_of_mem Row.id hr')
      rw [ih hr' (List.nodup_cons.mp hid).2]
      simp [hx]

theorem sum_map_ite {α : Type} (q : α → Bool) :
    ∀ (l : List α), (l.map (fun x => if q x then 1 else 0)).sum = l.countP q := by
  intro l
  induction l with
  | nil => rfl
  | cons a t ih => cases h : q a <;> simp [List.countP_cons, h, ih, Nat.add_comm]

/-- C10: over a store whose month query returns every event overlapping the
month, the sliding-window query returns each event once per month of the
window it overlaps — per-month results are concatenated without
deduplication, so an event overlapping k > 1 window months appears k
times. -/
theorem window_query_counts_per_month (today : Date) (mb ma : Nat)
    (rows : List Row) (r : Row) (hr : r ∈ rows)
    (hid : (rows.map Row.id).Nodup) :
    ∃ evs, (get_all_events (noFailStore rows) today mb ma).1 = Except.ok evs ∧
      evs.countP (fun x => x.id == r.id) =
        (windowMonths today mb ma).countP
          (fun ym => overlapsMonth r ym.1.toNat ym.2.toNat) := by
  unfold get_all_events noFailStore
  rw [collectMonths_noFail]
  refine ⟨_, rfl, ?_⟩
  rw [(List.perm_insertionSort agendaRel _).countP_eq]
  rw [List.countP_flatten, List.map_map]
  have hterm : ∀ o : Int,
      ((List.countP fun x => x.id == r.id) ∘ fun o => rows.filter (fun x =>
        overlapsMonth x (monthOf today o).1.toNat (monthOf today o).2.toNat)) o =
      (fun o => if overlapsMonth r (monthOf today o).1.toNat
        (monthOf today o).2.toNat then 1 else 0) o := by
    intro o
    exact countP_id_filter r _ rows hr hid
  rw [List.map_congr_left (fun o _ => hterm o)]
  rw [sum_map_ite]
  unfold windowMonths
  rw [List.countP_map]
  rfl

/-- An event spanning the March/April 2025 month boundary. -/
def spanRow : Row :=
  ⟨1, "Span", ⟨2025, 3, 30⟩, ⟨2025, 3, 30⟩, ⟨2025, 4, 2⟩, "09:00", "10:00", "",
    false, none, false⟩

/-- C10 witness: with today = 2025-06-15 and the default 6-months-each-way
window, the March 30 - April 2 event is returned twice — once for March, once
for April. -/
theorem window_query_counts_per_month_witness :
    (((get_all_events (noFailStore [spanRow]) ⟨2025, 6, 15⟩ 6 6).1.toOption.getD
      []).countP (fun x => x.id == spanRow.id)) = 2 := by
  obtain ⟨evs, h1, h2⟩ := window_query_counts_per_month ⟨2025, 6, 15⟩ 6 6 [spanRow]
    spanRow (List.mem_singleton.mpr rfl) (by decide)
  rw [h1]
  simpa using h2.trans (by rfl)
